import Mathlib

/-!
Verification of the Alcovia intervention engine
(`server/src/controllers/studentController.js` and the React Native client).

The controller handlers are embedded as pure state-transition functions over
an explicit `ServerState`; the database is modelled as the lists it stores
(students, daily logs, interventions) and the mentor-notification transport as
a `NotifyBehavior` parameter (success / deliberately skipped / raising).
Each handler also returns the ordered list of side effects it attempted, so
that ordering claims ("the log row is written before any state mutation")
can be stated about the trace.

JavaScript numbers are modelled as exact rationals (`ℚ`); `JsNum` adds the
non-finite values so that the `typeof x === "number" && Number.isFinite(x)`
guard of `parseFocusMinutes` can be expressed.
-/

set_option maxRecDepth 16384

namespace Alcovia

/-- A JavaScript number: either a finite value (modelled exactly as a
rational) or one of the non-finite values rejected by `Number.isFinite`. -/
inductive JsNum where
  | finite (q : ℚ)
  | nan
  | inf
  | ninf
deriving DecidableEq, Repr

/-- JS unary negation on a number: negated infinities swap, `NaN` stays. -/
def JsNum.neg : JsNum → JsNum
  | JsNum.finite q => JsNum.finite (-q)
  | JsNum.inf => JsNum.ninf
  | JsNum.ninf => JsNum.inf
  | JsNum.nan => JsNum.nan

/-- `Number.isNaN`. -/
def JsNum.isNaN : JsNum → Bool
  | JsNum.nan => true
  | _ => false

/-- IEEE addition (`minutes + ...` in the source), with the finite values
kept exact: `NaN` is absorbing, opposite infinities give `NaN`, an infinity
plus anything else keeps its sign. -/
def JsNum.add : JsNum → JsNum → JsNum
  | JsNum.nan, _ => JsNum.nan
  | _, JsNum.nan => JsNum.nan
  | JsNum.inf, JsNum.ninf => JsNum.nan
  | JsNum.ninf, JsNum.inf => JsNum.nan
  | JsNum.inf, _ => JsNum.inf
  | _, JsNum.inf => JsNum.inf
  | JsNum.ninf, _ => JsNum.ninf
  | _, JsNum.ninf => JsNum.ninf
  | JsNum.finite a, JsNum.finite b => JsNum.finite (a + b)

/-- IEEE division by the positive literal `60` (the only division the
controller performs, `seconds / 60`): infinities keep their sign, `NaN`
stays, finite values divide exactly. -/
def JsNum.div60 : JsNum → JsNum
  | JsNum.finite q => JsNum.finite (q / 60)
  | j => j

/-- JS `a > b` against an exact rational bound (the guard
`focusMinutes > 60`): `NaN` compares false, `Infinity` true, `-Infinity`
false. -/
def JsNum.gtQ : JsNum → ℚ → Bool
  | JsNum.finite a, b => decide (b < a)
  | JsNum.inf, _ => true
  | JsNum.ninf, _ => false
  | JsNum.nan, _ => false

/-- The `StrWhiteSpace` characters `Number(string)` trims: ASCII blanks,
NBSP, the line separators and the BOM. -/
def isStrWhiteSpace (c : Char) : Bool :=
  c = ' ' || c = '\t' || c = '\n' || c = '\r' ||
  c.toNat = 11 || c.toNat = 12 || c.toNat = 160 ||
  c.toNat = 0x2028 || c.toNat = 0x2029 || c.toNat = 0xFEFF

/-- Strip `StrWhiteSpace` from both ends. -/
def trimJs (cs : List Char) : List Char :=
  ((cs.dropWhile isStrWhiteSpace).reverse.dropWhile isStrWhiteSpace).reverse

/-- Value of one digit in bases up to 16; `none` for a non-digit. -/
def hexDigitVal (c : Char) : Option Nat :=
  if c.isDigit then some (c.toNat - 48)
  else if 'a' ≤ c ∧ c ≤ 'f' then some (c.toNat - 87)
  else if 'A' ≤ c ∧ c ≤ 'F' then some (c.toNat - 55)
  else none

/-- Value of a digit string in the given base, most significant first;
`none` if some character is not a digit of that base.  The empty list gives
`some 0`, so callers must require at least one digit themselves. -/
def digitsValBase (base : Nat) : List Char → Option Nat :=
  List.foldl
    (fun acc c =>
      match acc, hexDigitVal c with
      | some n, some d => if d < base then some (n * base + d) else none
      | _, _ => none)
    (some 0)

/-- `ExponentPart`: `e`/`E` already consumed; an optionally signed
non-empty run of decimal digits. -/
def parseExponent (cs : List Char) : Option Int :=
  match cs with
  | [] => none
  | '+' :: ds =>
    if ds.isEmpty then none else (digitsValBase 10 ds).map Int.ofNat
  | '-' :: ds =>
    if ds.isEmpty then none else (digitsValBase 10 ds).map (fun n => -(n : Int))
  | ds => (digitsValBase 10 ds).map Int.ofNat

/-- Scale an exact mantissa by `10 ^ e`. -/
def applyExp (q : ℚ) (e : Int) : ℚ :=
  if 0 ≤ e then q * (10 : ℚ) ^ e.toNat else q / (10 : ℚ) ^ (-e).toNat

/-- `StrUnsignedDecimalLiteral` without `Infinity`:
`DecimalDigits [. DecimalDigits] [ExponentPart]` or
`. DecimalDigits [ExponentPart]`; at least one mantissa digit is required
(`"."` alone is `NaN`, `"5."`, `".5"` and `"1e3"` are numbers). -/
def parseUnsignedDec (cs : List Char) : Option ℚ :=
  let intPart := cs.takeWhile Char.isDigit
  let rest := cs.dropWhile Char.isDigit
  let mantissaFrom : List Char → Option (ℚ × List Char) := fun r =>
    match r with
    | '.' :: r2 =>
      let frac := r2.takeWhile Char.isDigit
      let r3 := r2.dropWhile Char.isDigit
      if intPart.isEmpty && frac.isEmpty then none
      else
        match digitsValBase 10 intPart, digitsValBase 10 frac with
        | some i, some f =>
          some ((i : ℚ) + (f : ℚ) / ((10 : ℚ) ^ frac.length), r3)
        | _, _ => none
    | _ =>
      if intPart.isEmpty then none
      else (digitsValBase 10 intPart).map (fun n => ((n : ℚ), r))
  match mantissaFrom rest with
  | none => none
  | some (m, r3) =>
    match r3 with
    | [] => some m
    | 'e' :: ecs => (parseExponent ecs).map (applyExp m)
    | 'E' :: ecs => (parseExponent ecs).map (applyExp m)
    | _ => none

/-- `StrUnsignedDecimalLiteral`: the literal `Infinity` or a decimal
mantissa with optional exponent. -/
def parseUnsigned (cs : List Char) : Option JsNum :=
  if cs = ['I', 'n', 'f', 'i', 'n', 'i', 't', 'y'] then some JsNum.inf
  else (parseUnsignedDec cs).map JsNum.finite

/-- `NonDecimalIntegerLiteral`: `0x`/`0X` hex, `0o`/`0O` octal, `0b`/`0B`
binary, with at least one digit; no sign is allowed on these forms. -/
def parseNonDecimal (cs : List Char) : Option ℚ :=
  match cs with
  | '0' :: c :: ds =>
    if c = 'x' ∨ c = 'X' then
      if ds.isEmpty then none else (digitsValBase 16 ds).map (fun n => (n : ℚ))
    else if c = 'o' ∨ c = 'O' then
      if ds.isEmpty then none else (digitsValBase 8 ds).map (fun n => (n : ℚ))
    else if c = 'b' ∨ c = 'B' then
      if ds.isEmpty then none else (digitsValBase 2 ds).map (fun n => (n : ℚ))
    else none
  | _ => none

/-- Model of the JavaScript `Number(string)` builtin over the
`StrNumericLiteral` grammar: whitespace is trimmed, the empty string is
`0`, an optionally signed decimal literal (with optional fraction and
exponent) or `Infinity` gives its value, an unsigned hex/octal/binary
literal gives its value, and everything else is `NaN`.  Finite values are
kept exact (the rounding of the IEEE double representation is not
modelled). -/
def jsNumber (s : String) : JsNum :=
  match trimJs s.toList with
  | [] => JsNum.finite 0
  | '+' :: rest => (parseUnsigned rest).getD JsNum.nan
  | '-' :: rest => ((parseUnsigned rest).map JsNum.neg).getD JsNum.nan
  | cs =>
    match parseNonDecimal cs with
    | some q => JsNum.finite q
    | none => (parseUnsigned cs).getD JsNum.nan

/-- `Math.round`: finite values round half-up (`⌊x + 1/2⌋`); `NaN` and the
infinities are returned unchanged. -/
def jsRound : JsNum → JsNum
  | JsNum.finite q => JsNum.finite ((Int.floor (q + 1 / 2) : ℤ) : ℚ)
  | j => j

/-- JS `reason || "cheated"`: an absent or empty (falsy) reason falls back
to `"cheated"`. -/
def reasonOr : Option String → String
  | some r => if r = "" then "cheated" else r
  | none => "cheated"

/-- The request body fields the controller reads.  Absent fields are `none`
(respectively the empty string for the `||`-falsiness checks on
`student_id` / `task_description`, matching how the code only distinguishes
falsy from truthy there). -/
structure Body where
  student_id : String
  quiz_score : Option ℚ
  focus_minutes : Option JsNum
  focus_duration : Option String
  task_description : String
  intervention_id : Option Nat
  reason : Option String
deriving DecidableEq, Repr

/-- A `Body` with everything absent, to build concrete requests from. -/
def emptyBody : Body :=
  ⟨"", none, none, none, "", none, none⟩

/-- The string block of `parseFocusMinutes` (lines 26–40): split on `":"`;
exactly two parts with both parts non-`NaN` yield `minutes + seconds/60`
(IEEE semantics on non-finite parts); otherwise parse the whole string as a
bare number, defaulting to `0` when that is `NaN` as well. -/
def parseDurationString (s : String) : JsNum :=
  let numeric := jsNumber s
  let fallback : JsNum := if numeric.isNaN then JsNum.finite 0 else numeric
  match s.splitOn ":" with
  | [mPart, sPart] =>
    let minutes := jsNumber mPart
    let seconds := jsNumber sPart
    if !minutes.isNaN && !seconds.isNaN then
      JsNum.add minutes (JsNum.div60 seconds)
    else fallback
  | _ => fallback

/-- `parseFocusMinutes(body)` from `studentController.js` lines 21–43:
a finite numeric `focus_minutes` field is returned verbatim; otherwise a
string `focus_duration` is handled by `parseDurationString`; otherwise the
result is `0`. -/
def parseFocusMinutes (body : Body) : JsNum :=
  match body.focus_minutes with
  | some (JsNum.finite q) => JsNum.finite q
  | _ =>
    match body.focus_duration with
    | some s => parseDurationString s
    | none => JsNum.finite 0

/-- One row of the `daily_logs` table, as inserted by `dailyCheckin` and
`reportCheat` (`INSERT INTO daily_logs (student_id, quiz_score,
focus_minutes, status)`); `focus_minutes` holds `Math.round(focusMinutes)`
exactly as the code computes it (an integer-valued number for finite
inputs). -/
structure DailyLog where
  student_id : String
  quiz_score : ℚ
  focus_minutes : JsNum
  status : String
deriving DecidableEq, Repr

/-- One row of the `interventions` table. -/
structure Intervention where
  id : Nat
  student_id : String
  task_description : String
  status : String
  assigned_at : Nat
  completed_at : Option Nat
deriving DecidableEq, Repr

/-- The persistent store: the `students` table as an association list from
student id to status string, the append-only `daily_logs`, the
`interventions` table with the id the next `INSERT ... RETURNING id` will
allocate, and the value the SQL `NOW()` returns during the request. -/
structure ServerState where
  students : List (String × String)
  logs : List DailyLog
  interventions : List Intervention
  nextId : Nat
  now : Nat
deriving DecidableEq, Repr

/-- `UPDATE students SET status = $1 WHERE id = $2`: every row whose id
matches gets the new status; rows that do not match (in particular, when the
student does not exist) are untouched. -/
def updateStudentStatus (id status : String) (students : List (String × String)) :
    List (String × String) :=
  students.map (fun p => if p.1 = id then (p.1, status) else p)

/-- First row with the given id (`SELECT ... WHERE id = $1 ... LIMIT 1`). -/
def lookupStatus (id : String) : List (String × String) → Option String
  | [] => none
  | p :: rest => if p.1 = id then some p.2 else lookupStatus id rest

/-- Status of a student as the controller function `getStudentStatus` reads it
(`SELECT * FROM students WHERE id = $1`). -/
def studentStatusOf (st : ServerState) (id : String) : Option String :=
  lookupStatus id st.students

/-- Outcome of one call to the mentor-notification transport
(`triggerMentorNotification`), which is outside the repository: it either
resolves to a result object carrying an optional `skipped` flag and optional
`message`, or it raises. -/
inductive NotifyBehavior where
  | ok (skipped : Bool) (message : Option String)
  | raise
deriving DecidableEq, Repr

/-- The side effects a handler attempts, in program order. -/
inductive Effect where
  | insertLog (row : DailyLog)
  | updateStudent (id status : String)
  | notify (id : String) (score : ℚ) (focusMinutes : JsNum)
  | insertIntervention (iv : Intervention)
  | completeRows (interventionId : Nat) (studentId : String)
  | emitStatus (id : String)
deriving DecidableEq, Repr

/-- Whether an effect is a `daily_logs` insert. -/
def Effect.isInsertLog : Effect → Bool
  | Effect.insertLog _ => true
  | _ => false

/-- Whether an effect is a mentor-notification attempt. -/
def Effect.isNotify : Effect → Bool
  | Effect.notify _ _ _ => true
  | _ => false

/-- The JSON body a handler responds with, together with the HTTP status
code; fields the handler does not set are `none`. -/
structure HttpResponse where
  code : Nat
  status : Option String
  warning : Option String
  error : Option String
  success : Option Bool
  intervention_id : Option Nat
deriving DecidableEq, Repr

/-- A 400 response with the given error body. -/
def badRequest (msg : String) : HttpResponse :=
  ⟨400, none, none, some msg, none, none⟩

/-- `dailyCheckin` (lines 70–119): after validation, compute the success
guard `quizScore > 7 && focusMinutes > 60` on the unrounded parsed minutes,
insert one `daily_logs` row with the rounded minutes, update the student
status, and in the failing branch attempt the mentor notification inside a
`try`/`catch` that downgrades a raise to a `warning` on an otherwise normal
response.  Returns (response, resulting store, attempted-effect trace). -/
def dailyCheckin (nb : NotifyBehavior) (body : Body) (st : ServerState) :
    HttpResponse × ServerState × List Effect :=
  let studentId := body.student_id
  let focusMinutes := parseFocusMinutes body
  match body.quiz_score with
  | none => (badRequest "Missing required fields", st, [])
  | some quizScore =>
    if studentId = "" then (badRequest "Missing required fields", st, [])
    else
      let isSuccess : Bool := decide (7 < quizScore) && JsNum.gtQ focusMinutes 60
      let responseStatus := if isSuccess then "On Track" else "Pending Mentor Review"
      let dbStatus := if isSuccess then "on_track" else "needs_intervention"
      let row : DailyLog := ⟨studentId, quizScore, jsRound focusMinutes, dbStatus⟩
      let st1 : ServerState := { st with logs := st.logs ++ [row] }
      if isSuccess then
        let st2 : ServerState :=
          { st1 with students := updateStudentStatus studentId "normal" st1.students }
        (⟨200, some responseStatus, none, none, none, none⟩, st2,
          [Effect.insertLog row, Effect.updateStudent studentId "normal",
           Effect.emitStatus studentId])
      else
        let st2 : ServerState :=
          { st1 with
            students := updateStudentStatus studentId "needs_intervention" st1.students }
        let trace :=
          [Effect.insertLog row,
           Effect.updateStudent studentId "needs_intervention",
           Effect.notify studentId quizScore focusMinutes,
           Effect.emitStatus studentId]
        match nb with
        | NotifyBehavior.raise =>
          (⟨200, some responseStatus, some "Notification may have failed", none, none, none⟩,
            st2, trace)
        | NotifyBehavior.ok skipped message =>
          if skipped then
            (⟨200, some responseStatus, some (message.getD "Notification skipped"),
               none, none, none⟩, st2, trace)
          else
            (⟨200, some responseStatus, none, none, none, none⟩, st2, trace)

/-- `reportCheat` (lines 184–222): `reason` defaults to `"cheated"`, one
`daily_logs` row is inserted with quiz score 0 and rounded minutes, the
student is set to `needs_intervention`, and the notification is attempted
inside a `try`/`catch`; a raise is reported only inside the `status` string
(no separate `warning` field), a skip copies the transport `message` field into
`warning` verbatim. -/
def reportCheat (nb : NotifyBehavior) (body : Body) (st : ServerState) :
    HttpResponse × ServerState × List Effect :=
  let studentId := body.student_id
  let focusMinutes := parseFocusMinutes body
  if studentId = "" then (badRequest "Missing required fields", st, [])
  else
    let statusReason := reasonOr body.reason
    let row : DailyLog := ⟨studentId, 0, jsRound focusMinutes, statusReason⟩
    let st1 : ServerState := { st with logs := st.logs ++ [row] }
    let st2 : ServerState :=
      { st1 with students := updateStudentStatus studentId "needs_intervention" st1.students }
    let trace :=
      [Effect.insertLog row,
       Effect.updateStudent studentId "needs_intervention",
       Effect.notify studentId 0 focusMinutes,
       Effect.emitStatus studentId]
    match nb with
    | NotifyBehavior.raise =>
      (⟨200, some "Logged cheat (notification may have failed)", none, none, none, none⟩,
        st2, trace)
    | NotifyBehavior.ok skipped message =>
      if skipped then
        (⟨200, some "Logged cheat (notification skipped)", message, none, none, none⟩,
          st2, trace)
      else
        (⟨200, some "Logged cheat and notified mentor", none, none, none, none⟩, st2, trace)

/-- `assignIntervention` (lines 121–151): after validation, insert a pending
intervention (the store allocates the id) and unconditionally set the
student status to `remedial`; respond with the new intervention id. -/
def assignIntervention (body : Body) (st : ServerState) :
    HttpResponse × ServerState × List Effect :=
  let studentId := body.student_id
  let taskDescription := body.task_description
  if studentId = "" ∨ taskDescription = "" then
    (badRequest "Missing required fields", st, [])
  else
    let iv : Intervention := ⟨st.nextId, studentId, taskDescription, "pending", st.now, none⟩
    let st1 : ServerState :=
      { st with interventions := st.interventions ++ [iv], nextId := st.nextId + 1 }
    let st2 : ServerState :=
      { st1 with students := updateStudentStatus studentId "remedial" st1.students }
    (⟨200, none, none, none, some true, some iv.id⟩, st2,
      [Effect.insertIntervention iv, Effect.updateStudent studentId "remedial",
       Effect.emitStatus studentId])

/-- `UPDATE interventions SET status = completed, completed_at = NOW()
WHERE id = $2 AND student_id = $3` — note: no `status = pending`
condition, so an already-completed row with matching id and student is
matched (and re-stamped) as well. -/
def completeMatching (interventionId : Nat) (studentId : String) (now : Nat)
    (ivs : List Intervention) : List Intervention :=
  ivs.map (fun iv =>
    if iv.id = interventionId ∧ iv.student_id = studentId then
      { iv with status := "completed", completed_at := some now }
    else iv)

/-- The row count of that `UPDATE`: how many rows matched. -/
def matchCount (interventionId : Nat) (studentId : String)
    (ivs : List Intervention) : Nat :=
  (ivs.filter (fun iv => iv.id = interventionId ∧ iv.student_id = studentId)).length

/-- `completeIntervention` (lines 153–182): the validation
`!studentId || !interventionId` rejects an absent intervention id and the
falsy id `0` alike with 400 (store-allocated ids are positive, SQL
`SERIAL`, so a genuine id is never falsy); then run the completing
`UPDATE`; if it affected no row, answer 404 without touching the student;
otherwise set the student status to `normal` and answer
`{success: true}`. -/
def completeIntervention (body : Body) (st : ServerState) :
    HttpResponse × ServerState × List Effect :=
  let studentId := body.student_id
  match body.intervention_id with
  | none => (badRequest "Missing required fields", st, [])
  | some interventionId =>
    if studentId = "" ∨ interventionId = 0 then
      (badRequest "Missing required fields", st, [])
    else
      let st1 : ServerState :=
        { st with interventions := completeMatching interventionId studentId st.now st.interventions }
      if matchCount interventionId studentId st.interventions = 0 then
        (⟨404, none, none, some "Intervention not found", none, none⟩, st1,
          [Effect.completeRows interventionId studentId])
      else
        let st2 : ServerState :=
          { st1 with students := updateStudentStatus studentId "normal" st1.students }
        (⟨200, none, none, none, some true, none⟩, st2,
          [Effect.completeRows interventionId studentId,
           Effect.updateStudent studentId "normal", Effect.emitStatus studentId])

/-- One server request, with the behaviour of the notification transport for the
requests that attempt a notification. -/
inductive Op where
  | checkin (nb : NotifyBehavior) (body : Body)
  | cheat (nb : NotifyBehavior) (body : Body)
  | assign (body : Body)
  | complete (body : Body)
deriving DecidableEq, Repr

/-- The store after handling one request. -/
def applyOp (op : Op) (st : ServerState) : ServerState :=
  match op with
  | Op.checkin nb body => (dailyCheckin nb body st).2.1
  | Op.cheat nb body => (reportCheat nb body st).2.1
  | Op.assign body => (assignIntervention body st).2.1
  | Op.complete body => (completeIntervention body st).2.1

/-- The store after handling a sequence of requests, oldest first. -/
def runOps (ops : List Op) (st : ServerState) : ServerState :=
  ops.foldl (fun s op => applyOp op s) st

/-- The three student states of the data model. -/
def validStatus (s : String) : Prop :=
  s = "normal" ∨ s = "needs_intervention" ∨ s = "remedial"

instance (s : String) : Decidable (validStatus s) := by
  unfold validStatus; infer_instance

/-- Every student row carries one of the three states. -/
def stateInv (st : ServerState) : Prop :=
  ∀ p ∈ st.students, validStatus p.2

instance (st : ServerState) : Decidable (stateInv st) := by
  unfold stateInv; infer_instance

/-! ## Client-side focus session monitor (React Native `App.js`) -/

/-- The client component state that `handleFocusLoss`, `startTimer`,
`stopTimer` and `resetTimer` read and write: the `isTimerRunning` flag (the
code keeps a ref in sync with the state, collapsed to one field here), the
`focusViolation` flag, the locally cached student status, the cached pending
intervention (only its id matters here) and the elapsed seconds. -/
structure ClientState where
  isTimerRunning : Bool
  focusViolation : Bool
  studentStatus : String
  intervention : Option Nat
  focusSeconds : Nat
deriving DecidableEq, Repr

/-- Side effects of the client handlers: an activity-log entry or the
asynchronous `reportCheat` POST with its reason. -/
inductive ClientEffect where
  | log (message : String)
  | reportCheat (reason : String)
deriving DecidableEq, Repr

/-- `handleFocusLoss(reason)` (client): if the timer is not running, return
immediately with no action; otherwise stop the timer, set the violation
flag, optimistically set local status to `needs_intervention`, clear the
cached intervention, log, and fire the violation report. -/
def handleFocusLoss (reason : String) (cs : ClientState) :
    ClientState × List ClientEffect :=
  if !cs.isTimerRunning then (cs, [])
  else
    ({ cs with
        isTimerRunning := false
        focusViolation := true
        studentStatus := "needs_intervention"
        intervention := none },
      [ClientEffect.log "Focus session interrupted", ClientEffect.reportCheat reason])

/-- `startTimer` (client): clear the violation flag and start the timer. -/
def startTimer (cs : ClientState) : ClientState :=
  { cs with focusViolation := false, isTimerRunning := true }

/-- `stopTimer` (client): stop the timer. -/
def stopTimer (cs : ClientState) : ClientState :=
  { cs with isTimerRunning := false }

/-- `resetTimer` (client): stop the timer and zero elapsed time and the
violation flag. -/
def resetTimer (cs : ClientState) : ClientState :=
  { cs with isTimerRunning := false, focusSeconds := 0, focusViolation := false }

lemma validStatus_normal : validStatus "normal" := Or.inl rfl

lemma validStatus_needs : validStatus "needs_intervention" := Or.inr (Or.inl rfl)

lemma validStatus_remedial : validStatus "remedial" := Or.inr (Or.inr rfl)

lemma mem_updateStudentStatus {p : String × String} {id status : String}
    {students : List (String × String)}
    (hp : p ∈ updateStudentStatus id status students) :
    p.2 = status ∨ p ∈ students := by
  rcases List.mem_map.1 hp with ⟨q, hq, hpq⟩
  by_cases h : q.1 = id
  · rw [if_pos h] at hpq
    left; rw [← hpq]
  · rw [if_neg h] at hpq
    right; rw [← hpq]; exact hq

lemma forall_validStatus_update {students : List (String × String)} {id status : String}
    (hst : validStatus status) (h : ∀ p ∈ students, validStatus p.2) :
    ∀ p ∈ updateStudentStatus id status students, validStatus p.2 := by
  intro p hp
  rcases mem_updateStudentStatus hp with h2 | h2
  · rw [h2]; exact hst
  · exact h p h2

/-- The students table after `dailyCheckin` is either untouched (validation
failure) or the old table with one of the three status literals written. -/
lemma dailyCheckin_students (nb : NotifyBehavior) (body : Body) (st : ServerState) :
    (dailyCheckin nb body st).2.1.students = st.students ∨
    ∃ status, validStatus status ∧
      (dailyCheckin nb body st).2.1.students
        = updateStudentStatus body.student_id status st.students := by
  cases hq : body.quiz_score with
  | none => left; simp [dailyCheckin, hq]
  | some q =>
    by_cases hid : body.student_id = ""
    · left; simp [dailyCheckin, hq, hid]
    · cases hb : (decide (7 < q) && JsNum.gtQ (parseFocusMinutes body) 60) with
      | true =>
        right
        exact ⟨"normal", validStatus_normal, by simp [dailyCheckin, hq, hid, hb]⟩
      | false =>
        right
        refine ⟨"needs_intervention", validStatus_needs, ?_⟩
        cases nb with
        | raise => simp [dailyCheckin, hq, hid, hb]
        | ok skipped message =>
          cases skipped <;> simp [dailyCheckin, hq, hid, hb]

/-- The students table after `reportCheat` is either untouched or has
`needs_intervention` written. -/
lemma reportCheat_students (nb : NotifyBehavior) (body : Body) (st : ServerState) :
    (reportCheat nb body st).2.1.students = st.students ∨
    (reportCheat nb body st).2.1.students
      = updateStudentStatus body.student_id "needs_intervention" st.students := by
  by_cases hid : body.student_id = ""
  · left; simp [reportCheat, hid]
  · right
    cases nb with
    | raise => simp [reportCheat, hid]
    | ok skipped message => cases skipped <;> simp [reportCheat, hid]

/-- The students table after `assignIntervention` is either untouched or has
`remedial` written. -/
lemma assignIntervention_students (body : Body) (st : ServerState) :
    (assignIntervention body st).2.1.students = st.students ∨
    (assignIntervention body st).2.1.students
      = updateStudentStatus body.student_id "remedial" st.students := by
  by_cases hv : body.student_id = "" ∨ body.task_description = ""
  · left; simp [assignIntervention, hv]
  · right; simp [assignIntervention, hv]

/-- The students table after `completeIntervention` is either untouched or
has `normal` written. -/
lemma completeIntervention_students (body : Body) (st : ServerState) :
    (completeIntervention body st).2.1.students = st.students ∨
    (completeIntervention body st).2.1.students
      = updateStudentStatus body.student_id "normal" st.students := by
  cases hi : body.intervention_id with
  | none => left; simp [completeIntervention, hi]
  | some interventionId =>
    by_cases hv : body.student_id = "" ∨ interventionId = 0
    · left; simp [completeIntervention, hi, hv]
    · by_cases hc : matchCount interventionId body.student_id st.interventions = 0
      · left; simp [completeIntervention, hi, hv, hc]
      · right; simp [completeIntervention, hi, hv, hc]

/-- One request preserves the three-state invariant. -/
lemma stateInv_applyOp (op : Op) (st : ServerState) (h : stateInv st) :
    stateInv (applyOp op st) := by
  have step :
      ∀ (students' : List (String × String)),
        (students' = st.students ∨
          ∃ id status, validStatus status ∧
            students' = updateStudentStatus id status st.students) →
        ∀ p ∈ students', validStatus p.2 := by
    rintro students' (rfl | ⟨id, status, hval, rfl⟩)
    · exact h
    · exact forall_validStatus_update hval h
  cases op with
  | checkin nb body =>
    intro p hp
    refine step _ ?_ p hp
    rcases dailyCheckin_students nb body st with h2 | ⟨status, hval, h2⟩
    · exact Or.inl h2
    · exact Or.inr ⟨body.student_id, status, hval, h2⟩
  | cheat nb body =>
    intro p hp
    refine step _ ?_ p hp
    rcases reportCheat_students nb body st with h2 | h2
    · exact Or.inl h2
    · exact Or.inr ⟨body.student_id, "needs_intervention", validStatus_needs, h2⟩
  | assign body =>
    intro p hp
    refine step _ ?_ p hp
    rcases assignIntervention_students body st with h2 | h2
    · exact Or.inl h2
    · exact Or.inr ⟨body.student_id, "remedial", validStatus_remedial, h2⟩
  | complete body =>
    intro p hp
    refine step _ ?_ p hp
    rcases completeIntervention_students body st with h2 | h2
    · exact Or.inl h2
    · exact Or.inr ⟨body.student_id, "normal", validStatus_normal, h2⟩

/-! ## Claims -/

/-- C1: for every student and every sequence of operations (daily check-in,
focus-violation report, intervention assignment, intervention completion),
the state of every student afterwards is still one of exactly the three values
`normal`, `needs_intervention`, `remedial`. -/
theorem stateInv_runOps (ops : List Op) (st : ServerState) (h : stateInv st) :
    stateInv (runOps ops st) := by
  induction ops generalizing st with
  | nil => exact h
  | cons op ops ih =>
    rw [runOps, List.foldl_cons]
    exact ih (applyOp op st) (stateInv_applyOp op st h)

/-- Witness for C1 at a concrete initial store and a concrete sequence
containing all four operation kinds. -/
theorem stateInv_runOps_witness :
    stateInv
      (runOps
        [Op.checkin (NotifyBehavior.ok false none)
           { emptyBody with
             student_id := "s1"
             quiz_score := some 5
             focus_duration := some "10:00" },
         Op.cheat NotifyBehavior.raise { emptyBody with student_id := "s1" },
         Op.assign { emptyBody with student_id := "s1", task_description := "read ch 3" },
         Op.complete { emptyBody with student_id := "s1", intervention_id := some 1 }]
        ⟨[("s1", "normal")], [], [], 1, 50⟩) :=
  stateInv_runOps _ _ (by decide)

/-- After a `students` `UPDATE`, looking the student up finds the written
status, provided the student occurs in the table at all. -/
lemma lookupStatus_updateStudentStatus (id status : String) :
    ∀ students : List (String × String),
      (lookupStatus id students).isSome = true →
      lookupStatus id (updateStudentStatus id status students) = some status := by
  intro students
  induction students with
  | nil => intro h; simp [lookupStatus] at h
  | cons p rest ih =>
    intro h
    by_cases hp : p.1 = id
    · have hcons : updateStudentStatus id status (p :: rest)
          = (p.1, status) :: updateStudentStatus id status rest := by
        simp [updateStudentStatus, hp]
      rw [hcons, lookupStatus, if_pos hp]
    · have hcons : updateStudentStatus id status (p :: rest)
          = p :: updateStudentStatus id status rest := by
        simp [updateStudentStatus, hp]
      rw [lookupStatus, if_neg hp] at h
      rw [hcons, lookupStatus, if_neg hp]
      exact ih h

lemma studentStatusOf_after_update {st : ServerState} {id s0 : String}
    (hmem : studentStatusOf st id = some s0) (status : String)
    {st' : ServerState} (hst : st'.students = updateStudentStatus id status st.students) :
    studentStatusOf st' id = some status := by
  have hsome : (lookupStatus id st.students).isSome = true := by
    unfold studentStatusOf at hmem
    rw [hmem]
    rfl
  unfold studentStatusOf
  rw [hst]
  exact lookupStatus_updateStudentStatus id status st.students hsome

/-- C2: the check-in success guard is strict on both dimensions.  With
`quiz_score > 7` and unrounded `focusMinutes > 60` the student is set to
`normal` and the attempted-effect trace contains no mentor notification; any
other check-in (in particular the boundary values `quiz_score = 7` or
`focusMinutes = 60`) sets the student to `needs_intervention` and attempts a
mentor notification. -/
theorem dailyCheckin_guard_strict (nb : NotifyBehavior) (body : Body) (st : ServerState)
    (q : ℚ) (s0 : String) (hq : body.quiz_score = some q) (hid : body.student_id ≠ "")
    (hmem : studentStatusOf st body.student_id = some s0) :
    ((7 < q ∧ JsNum.gtQ (parseFocusMinutes body) 60 = true) →
      studentStatusOf (dailyCheckin nb body st).2.1 body.student_id = some "normal" ∧
      ∀ e ∈ (dailyCheckin nb body st).2.2, e.isNotify = false) ∧
    (¬(7 < q ∧ JsNum.gtQ (parseFocusMinutes body) 60 = true) →
      studentStatusOf (dailyCheckin nb body st).2.1 body.student_id
        = some "needs_intervention" ∧
      ∃ e ∈ (dailyCheckin nb body st).2.2, e.isNotify = true) := by
  constructor
  · intro hsucc
    constructor
    · refine studentStatusOf_after_update hmem "normal" ?_
      simp [dailyCheckin, hq, hid, hsucc.1, hsucc.2]
    · simp [dailyCheckin, hq, hid, hsucc.1, hsucc.2, Effect.isNotify]
  · intro hfail
    have hb : (decide (7 < q) && JsNum.gtQ (parseFocusMinutes body) 60) = false := by
      rcases Decidable.not_and_iff_or_not.1 hfail with h | h
      · simp [h]
      · have h2 : JsNum.gtQ (parseFocusMinutes body) 60 = false := by
          cases hg : JsNum.gtQ (parseFocusMinutes body) 60
          · rfl
          · exact absurd hg h
        simp [h2]
    constructor
    · refine studentStatusOf_after_update hmem "needs_intervention" ?_
      cases nb with
      | raise => simp [dailyCheckin, hq, hid, hb]
      | ok skipped message => cases skipped <;> simp [dailyCheckin, hq, hid, hb]
    · refine ⟨Effect.notify body.student_id q (parseFocusMinutes body), ?_, rfl⟩
      cases nb with
      | raise => simp [dailyCheckin, hq, hid, hb]
      | ok skipped message => cases skipped <;> simp [dailyCheckin, hq, hid, hb]

/-- Witness for C2 at the boundary `focusMinutes = 60` (quiz score 9,
focus duration `"60:00"`). -/
theorem dailyCheckin_guard_strict_witness :
    studentStatusOf
        (dailyCheckin (NotifyBehavior.ok false none)
          { emptyBody with
            student_id := "s1"
            quiz_score := some 9
            focus_duration := some "60:00" }
          ⟨[("s1", "normal")], [], [], 1, 50⟩).2.1 "s1"
      = some "needs_intervention" ∧
    ∃ e ∈ (dailyCheckin (NotifyBehavior.ok false none)
          { emptyBody with
            student_id := "s1"
            quiz_score := some 9
            focus_duration := some "60:00" }
          ⟨[("s1", "normal")], [], [], 1, 50⟩).2.2, e.isNotify = true :=
  (dailyCheckin_guard_strict (NotifyBehavior.ok false none) _ _ 9 "normal"
      rfl (by decide) (by decide)).2 (by with_unfolding_all decide)

/-- C4: the attempted-effect trace of a valid check-in starts with the single
`daily_logs` insert — it precedes every state mutation and notification —
and exactly that row is appended to the logs of the store. -/
theorem dailyCheckin_log_first (nb : NotifyBehavior) (body : Body) (st : ServerState)
    (q : ℚ) (hq : body.quiz_score = some q) (hid : body.student_id ≠ "") :
    ∃ row rest,
      (dailyCheckin nb body st).2.2 = Effect.insertLog row :: rest ∧
      (∀ e ∈ rest, e.isInsertLog = false) ∧
      (dailyCheckin nb body st).2.1.logs = st.logs ++ [row] := by
  by_cases hsucc : (decide (7 < q) && JsNum.gtQ (parseFocusMinutes body) 60) = true
  · refine ⟨⟨body.student_id, q, jsRound (parseFocusMinutes body), "on_track"⟩,
      [Effect.updateStudent body.student_id "normal", Effect.emitStatus body.student_id],
      ?_, ?_, ?_⟩
    · simp [dailyCheckin, hq, hid, hsucc]
    · simp [Effect.isInsertLog]
    · simp [dailyCheckin, hq, hid, hsucc]
  · have hb : (decide (7 < q) && JsNum.gtQ (parseFocusMinutes body) 60) = false := by
      simpa using hsucc
    refine ⟨⟨body.student_id, q, jsRound (parseFocusMinutes body), "needs_intervention"⟩,
      [Effect.updateStudent body.student_id "needs_intervention",
       Effect.notify body.student_id q (parseFocusMinutes body),
       Effect.emitStatus body.student_id], ?_, ?_, ?_⟩
    · cases nb with
      | raise => simp [dailyCheckin, hq, hid, hb]
      | ok skipped message => cases skipped <;> simp [dailyCheckin, hq, hid, hb]
    · simp [Effect.isInsertLog]
    · cases nb with
      | raise => simp [dailyCheckin, hq, hid, hb]
      | ok skipped message => cases skipped <;> simp [dailyCheckin, hq, hid, hb]

/-- Witness for C4 at a concrete failing check-in. -/
theorem dailyCheckin_log_first_witness :
    ∃ row rest,
      (dailyCheckin NotifyBehavior.raise
          { emptyBody with student_id := "s1", quiz_score := some 3 }
          ⟨[("s1", "normal")], [], [], 1, 50⟩).2.2
        = Effect.insertLog row :: rest ∧
      (∀ e ∈ rest, e.isInsertLog = false) ∧
      (dailyCheckin NotifyBehavior.raise
          { emptyBody with student_id := "s1", quiz_score := some 3 }
          ⟨[("s1", "normal")], [], [], 1, 50⟩).2.1.logs
        = ([] : List DailyLog) ++ [row] :=
  dailyCheckin_log_first NotifyBehavior.raise _ _ 3 rfl (by decide)

/-- C9: the violation handler of the client focus monitor fires only while the
session is running: with the timer stopped a focus-loss signal performs no
action at all; the handler always leaves the timer stopped, so a second
overlapping focus-loss signal before the next start is a no-op; and a
firing handler reports exactly one violation. -/
theorem handleFocusLoss_guarded (reason reason2 : String) (cs : ClientState) :
    (cs.isTimerRunning = false → handleFocusLoss reason cs = (cs, [])) ∧
    (handleFocusLoss reason cs).1.isTimerRunning = false ∧
    handleFocusLoss reason2 (handleFocusLoss reason cs).1
      = ((handleFocusLoss reason cs).1, []) ∧
    (cs.isTimerRunning = true →
      (handleFocusLoss reason cs).2
        = [ClientEffect.log "Focus session interrupted",
           ClientEffect.reportCheat reason]) := by
  refine ⟨?_, ?_, ?_, ?_⟩ <;>
    cases h : cs.isTimerRunning <;> simp [handleFocusLoss, h]

/-- Witness for C9: a stopped monitor ignores the signal, and the signal
right after a fired violation is a no-op. -/
theorem handleFocusLoss_guarded_witness :
    handleFocusLoss "window blurred" ⟨false, false, "normal", none, 10⟩
      = (⟨false, false, "normal", none, 10⟩, []) ∧
    handleFocusLoss "window hidden"
        (handleFocusLoss "window blurred" ⟨true, false, "normal", some 1, 10⟩).1
      = ((handleFocusLoss "window blurred" ⟨true, false, "normal", some 1, 10⟩).1, []) :=
  ⟨(handleFocusLoss_guarded "window blurred" "window hidden"
      ⟨false, false, "normal", none, 10⟩).1 rfl,
   (handleFocusLoss_guarded "window blurred" "window hidden"
      ⟨true, false, "normal", some 1, 10⟩).2.2.1⟩

/-- Counterexample to C3 as stated: a violation report whose notification
transport raises answers with the failure notice folded into the `status`
string and NO separate `warning` field, although the state transition to
`needs_intervention` did happen. -/
theorem reportCheat_raise_no_warning :
    (reportCheat NotifyBehavior.raise { emptyBody with student_id := "s1" }
        ⟨[("s1", "normal")], [], [], 1, 50⟩).1.warning = none ∧
    (reportCheat NotifyBehavior.raise { emptyBody with student_id := "s1" }
        ⟨[("s1", "normal")], [], [], 1, 50⟩).1.status
      = some "Logged cheat (notification may have failed)" ∧
    studentStatusOf
        (reportCheat NotifyBehavior.raise { emptyBody with student_id := "s1" }
          ⟨[("s1", "normal")], [], [], 1, 50⟩).2.1 "s1"
      = some "needs_intervention" := by
  with_unfolding_all decide

/-- C3 amended: when the notification transport raises, the log row and the
state update still happen and the response still reports the transition (the
store does not depend on the behaviour of the transport at all).  The check-in
response carries the non-empty warning `"Notification may have failed"`;
the violation report instead folds the failure notice into its `status`
string and carries no separate `warning` field. -/
theorem notify_failure_contained (body : Body) (st : ServerState) (q : ℚ)
    (hq : body.quiz_score = some q) (hid : body.student_id ≠ "")
    (hfail : ¬(7 < q ∧ JsNum.gtQ (parseFocusMinutes body) 60 = true)) :
    ((dailyCheckin NotifyBehavior.raise body st).1.status
        = some "Pending Mentor Review" ∧
      (dailyCheckin NotifyBehavior.raise body st).1.warning
        = some "Notification may have failed" ∧
      (dailyCheckin NotifyBehavior.raise body st).2.1.logs
        = st.logs ++ [⟨body.student_id, q, jsRound (parseFocusMinutes body),
            "needs_intervention"⟩] ∧
      (dailyCheckin NotifyBehavior.raise body st).2.1.students
        = updateStudentStatus body.student_id "needs_intervention" st.students ∧
      ∀ nb, (dailyCheckin nb body st).2.1 = (dailyCheckin NotifyBehavior.raise body st).2.1) ∧
    ((reportCheat NotifyBehavior.raise body st).1.status
        = some "Logged cheat (notification may have failed)" ∧
      (reportCheat NotifyBehavior.raise body st).1.warning = none ∧
      (reportCheat NotifyBehavior.raise body st).2.1.logs
        = st.logs ++ [⟨body.student_id, 0, jsRound (parseFocusMinutes body),
            reasonOr body.reason⟩] ∧
      (reportCheat NotifyBehavior.raise body st).2.1.students
        = updateStudentStatus body.student_id "needs_intervention" st.students ∧
      ∀ nb, (reportCheat nb body st).2.1 = (reportCheat NotifyBehavior.raise body st).2.1) := by
  have hb : (decide (7 < q) && JsNum.gtQ (parseFocusMinutes body) 60) = false := by
    rcases Decidable.not_and_iff_or_not.1 hfail with h | h
    · simp [h]
    · have h2 : JsNum.gtQ (parseFocusMinutes body) 60 = false := by
        cases hg : JsNum.gtQ (parseFocusMinutes body) 60
        · rfl
        · exact absurd hg h
      simp [h2]
  refine ⟨⟨?_, ?_, ?_, ?_, ?_⟩, ⟨?_, ?_, ?_, ?_, ?_⟩⟩
  · simp [dailyCheckin, hq, hid, hb]
  · simp [dailyCheckin, hq, hid, hb]
  · simp [dailyCheckin, hq, hid, hb]
  · simp [dailyCheckin, hq, hid, hb]
  · intro nb
    cases nb with
    | raise => rfl
    | ok skipped message => cases skipped <;> simp [dailyCheckin, hq, hid, hb]
  · simp [reportCheat, hid]
  · simp [reportCheat, hid]
  · simp [reportCheat, hid]
  · simp [reportCheat, hid]
  · intro nb
    cases nb with
    | raise => rfl
    | ok skipped message => cases skipped <;> simp [reportCheat, hid]

/-- Witness for the amended C3 at a concrete failing check-in. -/
theorem notify_failure_contained_witness :
    (dailyCheckin NotifyBehavior.raise
        { emptyBody with student_id := "s1", quiz_score := some 3 }
        ⟨[("s1", "normal")], [], [], 1, 50⟩).1.warning
      = some "Notification may have failed" :=
  (notify_failure_contained
      { emptyBody with student_id := "s1", quiz_score := some 3 }
      ⟨[("s1", "normal")], [], [], 1, 50⟩ 3 rfl (by decide)
      (by with_unfolding_all decide)).1.2.1

/-- The completing `UPDATE` touches nothing when no intervention row has the
given id and student. -/
lemma completeMatching_id {iid : Nat} {sid : String} {now : Nat} {ivs : List Intervention}
    (h : ∀ iv ∈ ivs, ¬(iv.id = iid ∧ iv.student_id = sid)) :
    completeMatching iid sid now ivs = ivs := by
  unfold completeMatching
  conv_rhs => rw [← List.map_id ivs]
  refine List.map_congr_left ?_
  intro iv hiv
  rw [if_neg (h iv hiv)]
  rfl

/-- The completing `UPDATE` affects no row when no intervention row has the
given id and student. -/
lemma matchCount_eq_zero {iid : Nat} {sid : String} {ivs : List Intervention}
    (h : ∀ iv ∈ ivs, ¬(iv.id = iid ∧ iv.student_id = sid)) :
    matchCount iid sid ivs = 0 := by
  unfold matchCount
  rw [List.length_eq_zero, List.filter_eq_nil_iff]
  intro iv hiv
  simpa using h iv hiv

/-- Counterexample to C7 as stated: the completing `UPDATE` has no
`status = pending` filter, so an id+student pair matching only an
already-completed intervention — no pending intervention exists at all —
is still counted as affected: the endpoint answers success and forces the
student back to `normal` instead of returning 404 with everything
unchanged. -/
theorem completeIntervention_completed_row_matches :
    (∀ iv ∈ (⟨[("s1", "needs_intervention")], [],
        [⟨1, "s1", "essay", "completed", 5, some 6⟩], 2, 50⟩ : ServerState).interventions,
      iv.status ≠ "pending") ∧
    (completeIntervention
        { emptyBody with student_id := "s1", intervention_id := some 1 }
        ⟨[("s1", "needs_intervention")], [],
          [⟨1, "s1", "essay", "completed", 5, some 6⟩], 2, 50⟩).1.code = 200 ∧
    (completeIntervention
        { emptyBody with student_id := "s1", intervention_id := some 1 }
        ⟨[("s1", "needs_intervention")], [],
          [⟨1, "s1", "essay", "completed", 5, some 6⟩], 2, 50⟩).1.success = some true ∧
    studentStatusOf
        (completeIntervention
          { emptyBody with student_id := "s1", intervention_id := some 1 }
          ⟨[("s1", "needs_intervention")], [],
            [⟨1, "s1", "essay", "completed", 5, some 6⟩], 2, 50⟩).2.1 "s1"
      = some "normal" := by
  with_unfolding_all decide

/-- C7 amended: completing with a non-falsy `intervention_id` (ids issued
by the store are positive) and a `student_id` that together match no
intervention row at all (whatever its status) returns 404 and leaves the
entire store — interventions and student state included — unchanged. -/
theorem completeIntervention_not_found (body : Body) (st : ServerState) (iid : Nat)
    (hiid : body.intervention_id = some iid) (hid : body.student_id ≠ "")
    (hiid0 : iid ≠ 0)
    (hnone : ∀ iv ∈ st.interventions, ¬(iv.id = iid ∧ iv.student_id = body.student_id)) :
    (completeIntervention body st).1.code = 404 ∧
    (completeIntervention body st).1.error = some "Intervention not found" ∧
    (completeIntervention body st).2.1 = st := by
  have hcnt := matchCount_eq_zero hnone
  have hcm := @completeMatching_id _ _ st.now _ hnone
  refine ⟨?_, ?_, ?_⟩ <;>
    simp [completeIntervention, hiid, hid, hiid0, hcnt, hcm]

/-- Witness for the amended C7 at a store with no interventions. -/
theorem completeIntervention_not_found_witness :
    (completeIntervention { emptyBody with student_id := "s1", intervention_id := some 9 }
        ⟨[("s1", "remedial")], [], [], 1, 50⟩).1.code = 404 ∧
    (completeIntervention { emptyBody with student_id := "s1", intervention_id := some 9 }
        ⟨[("s1", "remedial")], [], [], 1, 50⟩).1.error = some "Intervention not found" ∧
    (completeIntervention { emptyBody with student_id := "s1", intervention_id := some 9 }
        ⟨[("s1", "remedial")], [], [], 1, 50⟩).2.1
      = ⟨[("s1", "remedial")], [], [], 1, 50⟩ :=
  completeIntervention_not_found _ _ 9 rfl (by decide) (by decide) (by decide)

/-- The completing `UPDATE` counts an appended matching row. -/
lemma matchCount_append_singleton (iid : Nat) (sid : String)
    (ivs : List Intervention) (iv : Intervention)
    (h : iv.id = iid ∧ iv.student_id = sid) :
    matchCount iid sid (ivs ++ [iv]) = matchCount iid sid ivs + 1 := by
  unfold matchCount
  rw [List.filter_append]
  simp [h.1, h.2]

/-- The completing `UPDATE` stamps an appended matching row. -/
lemma completeMatching_append_singleton (iid : Nat) (sid : String) (now : Nat)
    (ivs : List Intervention) (iv : Intervention)
    (h : iv.id = iid ∧ iv.student_id = sid) :
    completeMatching iid sid now (ivs ++ [iv])
      = completeMatching iid sid now ivs
        ++ [{ iv with status := "completed", completed_at := some now }] := by
  unfold completeMatching
  rw [List.map_append]
  simp [h.1, h.2]

/-- C8: assigning an intervention (which inserts a pending intervention and
unconditionally forces the student to `remedial`) and then completing that
same intervention for that student succeeds, returns the student to
`normal`, and marks the intervention `completed` with a non-null completion
timestamp.  The allocated id is required non-zero, as the SQL `SERIAL`
sequence guarantees, since completion rejects the falsy id `0`. -/
theorem assign_then_complete (st : ServerState) (b1 b2 : Body) (s0 : String)
    (hsid : b1.student_id ≠ "") (htd : b1.task_description ≠ "")
    (hb2sid : b2.student_id = b1.student_id)
    (hb2iid : b2.intervention_id = some st.nextId)
    (hnz : st.nextId ≠ 0)
    (hmem : studentStatusOf st b1.student_id = some s0) :
    (assignIntervention b1 st).1.success = some true ∧
    (assignIntervention b1 st).1.intervention_id = some st.nextId ∧
    studentStatusOf (assignIntervention b1 st).2.1 b1.student_id = some "remedial" ∧
    (∃ iv ∈ (assignIntervention b1 st).2.1.interventions,
      iv.id = st.nextId ∧ iv.student_id = b1.student_id ∧ iv.status = "pending" ∧
        iv.completed_at = none) ∧
    (completeIntervention b2 (assignIntervention b1 st).2.1).1.success = some true ∧
    studentStatusOf (completeIntervention b2 (assignIntervention b1 st).2.1).2.1
        b1.student_id = some "normal" ∧
    ∃ iv ∈ (completeIntervention b2 (assignIntervention b1 st).2.1).2.1.interventions,
      iv.id = st.nextId ∧ iv.student_id = b1.student_id ∧ iv.status = "completed" ∧
        iv.completed_at ≠ none := by
  have hvalid : ¬(b1.student_id = "" ∨ b1.task_description = "") := by
    rintro (h | h)
    · exact hsid h
    · exact htd h
  have hassign : assignIntervention b1 st
      = (⟨200, none, none, none, some true, some st.nextId⟩,
         ⟨updateStudentStatus b1.student_id "remedial" st.students, st.logs,
          st.interventions
            ++ [⟨st.nextId, b1.student_id, b1.task_description, "pending", st.now, none⟩],
          st.nextId + 1, st.now⟩,
         [Effect.insertIntervention
            ⟨st.nextId, b1.student_id, b1.task_description, "pending", st.now, none⟩,
          Effect.updateStudent b1.student_id "remedial",
          Effect.emitStatus b1.student_id]) := by
    simp [assignIntervention, hvalid]
  have hb2 : ¬(b2.student_id = "") := by rw [hb2sid]; exact hsid
  have hivmatch :
      (⟨st.nextId, b1.student_id, b1.task_description, "pending", st.now, none⟩
        : Intervention).id = st.nextId ∧
      (⟨st.nextId, b1.student_id, b1.task_description, "pending", st.now, none⟩
        : Intervention).student_id = b2.student_id := ⟨rfl, hb2sid.symm⟩
  have hcnt := matchCount_append_singleton st.nextId b2.student_id st.interventions _ hivmatch
  have hcm := completeMatching_append_singleton st.nextId b2.student_id st.now
    st.interventions _ hivmatch
  have hremedial : studentStatusOf (assignIntervention b1 st).2.1 b1.student_id
      = some "remedial" := by
    refine studentStatusOf_after_update hmem "remedial" ?_
    rw [hassign]
  have hcomplete : completeIntervention b2 (assignIntervention b1 st).2.1
      = (⟨200, none, none, none, some true, none⟩,
         ⟨updateStudentStatus b2.student_id "normal"
            (updateStudentStatus b1.student_id "remedial" st.students), st.logs,
          completeMatching st.nextId b2.student_id st.now st.interventions
            ++ [⟨st.nextId, b1.student_id, b1.task_description, "completed", st.now,
                  some st.now⟩],
          st.nextId + 1, st.now⟩,
         [Effect.completeRows st.nextId b2.student_id,
          Effect.updateStudent b2.student_id "normal",
          Effect.emitStatus b2.student_id]) := by
    rw [hassign]
    simp [completeIntervention, hb2iid, hb2, hnz, hcnt, hcm]
  refine ⟨?_, ?_, hremedial, ?_, ?_, ?_, ?_⟩
  · rw [hassign]
  · rw [hassign]
  · refine ⟨⟨st.nextId, b1.student_id, b1.task_description, "pending", st.now, none⟩,
      ?_, rfl, rfl, rfl, rfl⟩
    rw [hassign]
    exact List.mem_append_right _ (List.mem_singleton.2 rfl)
  · rw [hcomplete]
  · refine studentStatusOf_after_update hremedial "normal" ?_
    rw [hcomplete, hassign, hb2sid]
  · refine ⟨⟨st.nextId, b1.student_id, b1.task_description, "completed", st.now,
      some st.now⟩, ?_, rfl, rfl, rfl, by simp⟩
    rw [hcomplete]
    exact List.mem_append_right _ (List.mem_singleton.2 rfl)

/-- Witness for C8 at a concrete store and request pair. -/
theorem assign_then_complete_witness :
    studentStatusOf
        (completeIntervention
          { emptyBody with student_id := "s1", intervention_id := some 7 }
          (assignIntervention
            { emptyBody with student_id := "s1", task_description := "essay" }
            ⟨[("s1", "needs_intervention")], [], [], 7, 50⟩).2.1).2.1 "s1"
      = some "normal" ∧
    ∃ iv ∈ (completeIntervention
          { emptyBody with student_id := "s1", intervention_id := some 7 }
          (assignIntervention
            { emptyBody with student_id := "s1", task_description := "essay" }
            ⟨[("s1", "needs_intervention")], [], [], 7, 50⟩).2.1).2.1.interventions,
      iv.id = 7 ∧ iv.student_id = "s1" ∧ iv.status = "completed" ∧
        iv.completed_at ≠ none :=
  ⟨(assign_then_complete ⟨[("s1", "needs_intervention")], [], [], 7, 50⟩
      { emptyBody with student_id := "s1", task_description := "essay" }
      { emptyBody with student_id := "s1", intervention_id := some 7 }
      "needs_intervention" (by decide) (by decide) rfl rfl (by decide)
      (by decide)).2.2.2.2.2.1,
   (assign_then_complete ⟨[("s1", "needs_intervention")], [], [], 7, 50⟩
      { emptyBody with student_id := "s1", task_description := "essay" }
      { emptyBody with student_id := "s1", intervention_id := some 7 }
      "needs_intervention" (by decide) (by decide) rfl rfl (by decide)
      (by decide)).2.2.2.2.2.2⟩

/-- C10: both the check-in and the violation report write `Math.round` of
the parsed focus minutes into the `daily_logs` row while the check-in
success guard is evaluated on the unrounded value; concretely, a parsed
value of `60.5` (duration `"60:30"`, with a quiz score of 5) is logged as
`61 > 60` although the check-in is classified as failing. -/
theorem logged_minutes_rounded (nb : NotifyBehavior) (body : Body) (st : ServerState)
    (q : ℚ) (hq : body.quiz_score = some q) (hid : body.student_id ≠ "") :
    ((dailyCheckin nb body st).2.1.logs
      = st.logs ++ [⟨body.student_id, q, jsRound (parseFocusMinutes body),
          if 7 < q ∧ JsNum.gtQ (parseFocusMinutes body) 60 = true then "on_track"
          else "needs_intervention"⟩]) ∧
    ((reportCheat nb body st).2.1.logs
      = st.logs ++ [⟨body.student_id, 0, jsRound (parseFocusMinutes body),
          reasonOr body.reason⟩]) ∧
    parseFocusMinutes { emptyBody with
      student_id := "s1"
      quiz_score := some 5
      focus_duration := some "60:30" } = JsNum.finite (121 / 2) ∧
    jsRound (JsNum.finite (121 / 2)) = JsNum.finite 61 ∧ (60 : Int) < 61 ∧
    (dailyCheckin (NotifyBehavior.ok false none)
        { emptyBody with
          student_id := "s1"
          quiz_score := some 5
          focus_duration := some "60:30" }
        ⟨[("s1", "normal")], [], [], 1, 50⟩).1.status
      = some "Pending Mentor Review" ∧
    (dailyCheckin (NotifyBehavior.ok false none)
        { emptyBody with
          student_id := "s1"
          quiz_score := some 5
          focus_duration := some "60:30" }
        ⟨[("s1", "normal")], [], [], 1, 50⟩).2.1.logs
      = [⟨"s1", 5, JsNum.finite 61, "needs_intervention"⟩] := by
  refine ⟨?_, ?_, ?_, ?_, ?_, ?_, ?_⟩
  · by_cases hsucc : 7 < q ∧ JsNum.gtQ (parseFocusMinutes body) 60 = true
    · have hb : (decide (7 < q) && JsNum.gtQ (parseFocusMinutes body) 60) = true := by
        simp [hsucc.1, hsucc.2]
      rw [if_pos hsucc]
      simp [dailyCheckin, hq, hid, hb]
    · have hb : (decide (7 < q) && JsNum.gtQ (parseFocusMinutes body) 60) = false := by
        rcases Decidable.not_and_iff_or_not.1 hsucc with h | h
        · simp [h]
        · have h2 : JsNum.gtQ (parseFocusMinutes body) 60 = false := by
            cases hg : JsNum.gtQ (parseFocusMinutes body) 60
            · rfl
            · exact absurd hg h
          simp [h2]
      rw [if_neg hsucc]
      cases nb with
      | raise => simp [dailyCheckin, hq, hid, hb]
      | ok skipped message => cases skipped <;> simp [dailyCheckin, hq, hid, hb]
  · cases nb with
    | raise => simp [reportCheat, hid]
    | ok skipped message => cases skipped <;> simp [reportCheat, hid]
  · with_unfolding_all decide
  · with_unfolding_all decide
  · decide
  · with_unfolding_all decide
  · with_unfolding_all decide

/-- Witness for C10 at a concrete violation report. -/
theorem logged_minutes_rounded_witness :
    (reportCheat NotifyBehavior.raise
        { emptyBody with
          student_id := "s1"
          quiz_score := some 2
          focus_duration := some "60:30" }
        ⟨[("s1", "normal")], [], [], 1, 50⟩).2.1.logs
      = ([] : List DailyLog)
        ++ [⟨"s1", 0,
              jsRound (parseFocusMinutes
                { emptyBody with
                  student_id := "s1"
                  quiz_score := some 2
                  focus_duration := some "60:30" }),
              "cheated"⟩] :=
  (logged_minutes_rounded NotifyBehavior.raise
      { emptyBody with
        student_id := "s1"
        quiz_score := some 2
        focus_duration := some "60:30" }
      ⟨[("s1", "normal")], [], [], 1, 50⟩ 2 rfl (by decide)).2.1

end Alcovia
